import Mathlib

/-!
Verification of the `ser` repository's result-classification and report-comparison
layer against its specification.

The Python scripts under analysis are shallowly embedded below:
* `analyze_examples.py` (dual-method analyzer) — namespace `AnalyzeDual`;
* `scripts/analyze_examples.py` (optimized-only analyzer) — namespace `AnalyzeOpt`;
* `check_proofs.py` — namespace `CheckProofs`;
* `scripts/test_determinism.py` — namespace `Determinism`.
The Rust verification engine itself is absent from the inspected source tree
(the spec states the source "contains only its callers"); the parts of it a
claim needs are modelled from the spec in namespace `Engine`, each such
definition carrying a doc comment that says so.

Impure aspects (process spawning, wall-clock timing, file I/O) are factored
out: each embedded function takes the process output / exit code / file
contents as explicit arguments and returns the pure classification record that
the script computes from them.
-/

namespace PyStr

/-- Boolean test that a character list starts with another character list. -/
def chListStarts : List Char → List Char → Bool
  | [], _ => true
  | _ :: _, [] => false
  | a :: as, b :: bs => a == b && chListStarts as bs

/-- Boolean substring containment on character lists. -/
def chListHasSub (needle : List Char) : List Char → Bool
  | [] => chListStarts needle []
  | c :: rest => chListStarts needle (c :: rest) || chListHasSub needle rest

/-- Embedding of the Python expression `needle in hay` on strings. -/
def pyIn (needle hay : String) : Bool :=
  chListHasSub needle.data hay.data

/-- Boolean test that a string ends with another string. -/
def pyEndsWith (sfx s : String) : Bool :=
  chListStarts sfx.data.reverse s.data.reverse

/-- Embedding of Python `str.isdigit` restricted to ASCII decimal digits:
true on a nonempty string all of whose characters are decimal digits. -/
def pyIsDigitStr (cs : List Char) : Bool :=
  !cs.isEmpty && cs.all Char.isDigit

/-- Whitespace characters recognized by Python `str.split()` (ASCII range). -/
def pyIsSpace (c : Char) : Bool :=
  c == ' ' || c == '\t' || c == '\n' || c == '\x0d' || c == '\x0b' || c == '\x0c'

/-- Split a character list at every occurrence of a separator character,
keeping empty pieces — the semantics of Python `str.split(sep)` for a
one-character separator. -/
def splitOnChar (sep : Char) : List Char → List (List Char)
  | [] => [[]]
  | c :: rest =>
    match splitOnChar sep rest with
    | [] => [[]]
    | h :: t => if c == sep then [] :: h :: t else (c :: h) :: t

/-- Embedding of Python `s.split(sep)` for a one-character separator. -/
def pySplitOn (sep : Char) (s : String) : List String :=
  (splitOnChar sep s.data).map fun cs => String.mk cs

/-- Worker for `pySplitWs`: split on whitespace runs, dropping empty pieces;
`acc` holds the characters of the current word in reverse. -/
def splitWsAux : List Char → List Char → List String
  | [], acc => if acc.isEmpty then [] else [String.mk acc.reverse]
  | c :: rest, acc =>
    if pyIsSpace c then
      if acc.isEmpty then splitWsAux rest []
      else String.mk acc.reverse :: splitWsAux rest []
    else splitWsAux rest (c :: acc)

/-- Embedding of Python `str.split()` with no separator: split on runs of
whitespace, dropping empty pieces. -/
def pySplitWs (s : String) : List String :=
  splitWsAux s.data []

/-- Embedding of Python `sep.join(pieces)`. -/
def pyJoin (sep : String) : List String → String
  | [] => ""
  | [x] => x
  | x :: y :: rest => x ++ sep ++ pyJoin sep (y :: rest)

end PyStr

open PyStr

namespace AnalyzeDual

/-!
Embedding of `analyze_examples.py` (`run_single_analysis` and the
opt/no-opt combination logic of `analyze_file`).  `output` stands for the
combined stdout+stderr of the checker process and `returncode` for its exit
code; the cpu-time bookkeeping of the script is pure I/O and is omitted.
-/

/-- Timeout-marker detection of `run_single_analysis` (lines 84–89):
`is_smpt_timeout` is true when the combined output contains any of the four
recognized SMPT-timeout patterns. -/
def is_smpt_timeout (output : String) : Bool :=
  pyIn "SMPT timeout:" output ||
  pyIn "SMPT verification failed: SMPT timeout:" output ||
  pyIn "Failed to run SMPT: SMPT timeout:" output ||
  pyIn "Analysis timed out" output

/-- Original-method result parsing of `run_single_analysis` (lines 97–100),
used when the process exited with code 0. -/
def original_of (output : String) : String :=
  if pyIn "Original method: Serializable" output then "Serializable"
  else if pyIn "Original method: Not serializable" output then "Not serializable"
  else "Unknown"

/-- Proof-based-method result parsing of `run_single_analysis`
(lines 103–106), used when the process exited with code 0. -/
def proof_of (output : String) : String :=
  if pyIn "Proof-based method: Proof" output then "Serializable"
  else if pyIn "Proof-based method: CounterExample" output then "Not serializable"
  else "Unknown"

/-- Per-method result pair of `run_single_analysis` (lines 91–114): parse the
two method results on exit code 0, otherwise classify by the timeout flag. -/
def method_results (output : String) (returncode : Int) : String × String :=
  if returncode = 0 then
    (original_of output, proof_of output)
  else if is_smpt_timeout output then
    ("SMPT Timeout", "SMPT Timeout")
  else
    ("Error", "Error")

/-- Combined status construction of `run_single_analysis` (lines 116–136):
a `(status, console_status)` pair computed from the two method results. -/
def combined_status (o p : String) : String × String :=
  if o = p then
    if o = "Serializable" then ("✅ Serializable", "Serializable")
    else if o = "Not serializable" then ("❌ Not serializable", "Not serializable")
    else if o = "SMPT Timeout" then ("⏱️ SMPT Timeout", "SMPT Timeout")
    else if o = "Error" then ("⚠️ Error", "Error")
    else ("❓ Unknown", "Unknown")
  else
    ("⚠️ Inconsistent (orig: " ++ o ++ ", proof: " ++ p ++ ")", "Inconsistent")

/-- Result record returned by `run_single_analysis` (pure fields only). -/
structure RunResult where
  status : String
  console_status : String
  original_result : String
  proof_result : String
  is_timeout : Bool
  deriving DecidableEq, Repr

/-- Embedding of `run_single_analysis`: classification of one checker run
from its combined output and exit code. -/
def run_single_analysis (output : String) (returncode : Int) : RunResult :=
  { status := (combined_status (method_results output returncode).1
                 (method_results output returncode).2).1
    console_status := (combined_status (method_results output returncode).1
                 (method_results output returncode).2).2
    original_result := (method_results output returncode).1
    proof_result := (method_results output returncode).2
    is_timeout := is_smpt_timeout output }

/-- Embedding of the opt/no-opt status combination in `analyze_file`
(lines 162–187): returns the `(status, console_status)` reported for the
example given the results of the optimized and unoptimized runs. -/
def combine_statuses (opt noopt : RunResult) : String × String :=
  if opt.status = noopt.status then
    (opt.status, opt.console_status)
  else if opt.is_timeout || noopt.is_timeout then
    if opt.is_timeout && !noopt.is_timeout then
      (noopt.status ++ " (opt timed out)", noopt.console_status ++ " (opt timed out)")
    else if noopt.is_timeout && !opt.is_timeout then
      (opt.status ++ " (no-opt timed out)", opt.console_status ++ " (no-opt timed out)")
    else
      ("⏱️ Both Timed Out", "Both Timed Out")
  else
    ("⚠️ Inconsistent", "Inconsistent")

end AnalyzeDual

namespace AnalyzeOpt

/-!
Embedding of `scripts/analyze_examples.py` (`run_single_analysis` and the
non-validated / valid-proof bookkeeping of `run_analysis`).  `out` stands for
the combined stdout+stderr of the checker process.
-/

/-- Timeout-marker detection of `run_single_analysis` (line 78). -/
def timeout_flag (out : String) : Bool :=
  pyIn "SMPT timeout:" out ||
  pyIn "Analysis timed out" out ||
  pyIn "⏱️ RESULT: TIMEOUT" out ||
  pyIn "Number of components in semilinear set is too large" out

/-- Proof-certificate validity parsing (lines 90–95), consulted when the
output reports a serializable result. -/
def proof_valid_of (out : String) : Option Bool :=
  if pyIn "✅ Proof certificate is VALID" out then some true
  else if pyIn "❌ Proof certificate is INVALID" out then some false
  else if pyIn "✅ PROOF CERTIFICATE FOUND" out then some true
  else none

/-- Counterexample-trace validity parsing (lines 99–105), consulted when the
output reports a non-serializable result. -/
def trace_valid_of (out : String) : Option Bool :=
  if pyIn "✅ Trace is valid!" out then some true
  else if pyIn "❌ Trace is INVALID!" out then some false
  else if pyIn "❌ COUNTEREXAMPLE TRACE FOUND" out then some true
  else none

/-- Result parsing of `run_single_analysis` (lines 80–113): computes
`(orig, proof, trace_valid, proof_verification)`. -/
def parse_results (out : String) (returncode : Int) :
    String × String × Option Bool × Option Bool :=
  if returncode = 0 then
    if pyIn "✅ RESULT: SERIALIZABLE" out then
      ("Serializable", "Serializable", none, proof_valid_of out)
    else if pyIn "❌ RESULT: NOT SERIALIZABLE" out then
      ("Not serializable", "Not serializable", trace_valid_of out, none)
    else if pyIn "⏱️ RESULT: TIMEOUT" out then
      ("SMPT Timeout", "SMPT Timeout", none, none)
    else
      ("Unknown", "Unknown", none, none)
  else if timeout_flag out then
    ("SMPT Timeout", "SMPT Timeout", none, none)
  else
    ("Error", "Error", none, none)

/-- Status-string construction of `run_single_analysis` (lines 115–125). -/
def status_of (o p : String) : String :=
  if o = p then
    if o = "Serializable" then "✅ Serializable"
    else if o = "Not serializable" then "❌ Not serializable"
    else if o = "SMPT Timeout" then "⏱️ SMPT Timeout"
    else "⚠️ Error"
  else "⚠️ Error"

/-- Result record returned by `run_single_analysis` (pure fields only). -/
structure RunResult where
  status : String
  original_result : String
  proof_result : String
  trace_valid : Option Bool
  proof_verification : Option Bool
  is_timeout : Bool
  deriving DecidableEq, Repr

/-- Embedding of `run_single_analysis` of the optimized-only analyzer:
classification of one checker run from its combined output and exit code
(the `subprocess.TimeoutExpired` early return, which also yields equal
`SMPT Timeout` method results, is outside this output/exit-code domain). -/
def run_single_analysis (out : String) (returncode : Int) : RunResult :=
  { status := status_of (parse_results out returncode).1 (parse_results out returncode).2.1
    original_result := (parse_results out returncode).1
    proof_result := (parse_results out returncode).2.1
    trace_valid := (parse_results out returncode).2.2.1
    proof_verification := (parse_results out returncode).2.2.2
    is_timeout := timeout_flag out }

/-- Embedding of the `nv_proofs` selection of `run_analysis` (lines 162–165):
results reported in the "Non-validated proofs" list. -/
def nv_proofs (rs : List RunResult) : List RunResult :=
  rs.filter fun r =>
    r.original_result == "Serializable" && r.proof_result == "Serializable" &&
      r.proof_verification == some false

/-- Embedding of the summands counted into `vp` by `run_analysis`
(lines 197–200): serializable results whose proof verification returned
valid, i.e. the results counted as validly proven serializable cases. -/
def valid_proof_results (rs : List RunResult) : List RunResult :=
  rs.filter fun r =>
    r.original_result == "Serializable" && r.proof_result == "Serializable" &&
      r.proof_verification == some true

end AnalyzeOpt

namespace CheckProofs

/-!
Embedding of `check_proofs.py` (`check_proof_validity`, `analyze_result`, and
the problematic-case classification of `main`).
-/

/-- Embedding of `check_proof_validity` (lines 24–36): the optional validity
boolean and the status tag. -/
def check_proof_validity (stdout : String) : Option Bool × String :=
  if pyIn "✅ Proof certificate is VALID" stdout then (some true, "valid")
  else if pyIn "❌ Proof certificate is INVALID" stdout then (some false, "invalid")
  else if pyIn "Proof Certificate Verification:" stdout then (some false, "unclear")
  else (none, "no_verification")

/-- Info dictionary built by `analyze_result`; keys the Python code leaves
absent are `none` (for the optional-boolean fields this coincides with a
stored Python `None`, matching every `info.get` access performed on them). -/
structure Info where
  status : String
  result : Option String := none
  error : Option String := none
  proof_valid : Option Bool := none
  proof_status : Option String := none
  has_ns_invariants : Option Bool := none
  initial_state_check : Option Bool := none
  has_ns_trace : Option Bool := none
  has_completed_pairs : Option Bool := none
  deriving DecidableEq, Repr

/-- Serializability-verdict parsing of `analyze_result` (lines 48–54): the
value bound to `info["result"]`. -/
def result_of (stdout : String) : String :=
  if pyIn "✅ The network system IS serializable" stdout then "serializable"
  else if pyIn "❌ The network system is NOT serializable" stdout then "not_serializable"
  else "unknown"

/-- Embedding of `analyze_result` (lines 38–87). -/
def analyze_result (stdout stderr : String) (returncode : Int) : Info :=
  if returncode != 0 || pyIn "ERROR" stderr || pyIn "TIMEOUT" stderr then
    { status := "error", error := some stderr }
  else if result_of stdout = "serializable" then
    { status := "success", result := some (result_of stdout)
      proof_valid := (check_proof_validity stdout).1
      proof_status := some (check_proof_validity stdout).2
      has_ns_invariants := some (pyIn "NS-Level Invariants:" stdout)
      initial_state_check := some (pyIn "✓ Initial state satisfies the invariant" stdout) }
  else if result_of stdout = "not_serializable" then
    { status := "success", result := some (result_of stdout)
      has_ns_trace := some (pyIn "NS-Level Counterexample Trace:" stdout)
      has_completed_pairs := some (pyIn "Completed Request/Response Pairs:" stdout) }
  else
    { status := "success", result := some (result_of stdout) }

/-- Embedding of the problem-description accumulation in `main`
(lines 107–137): the list of problem messages recorded for one file. -/
def problem_desc (info : Info) : List String :=
  if info.status = "error" then
    ["Error: " ++ info.error.getD "Unknown error"]
  else if info.result = some "serializable" then
    if info.proof_valid = some false then ["Invalid proof certificate"]
    else if info.proof_valid = none then ["No proof verification performed"]
    else if info.has_ns_invariants.getD false = false then ["Missing NS-level invariants"]
    else if info.initial_state_check.getD false = false then
      ["Initial state check failed or missing"]
    else []
  else if info.result = some "not_serializable" then
    (if info.has_ns_trace.getD false = false then
      ["Missing NS-level counterexample trace"] else []) ++
    (if info.has_completed_pairs.getD false = false then
      ["Missing completed request/response pairs"] else [])
  else if info.result = some "unknown" then
    ["Could not determine serializability result"]
  else []

/-- A file is listed among the problematic files exactly when at least one
problem message was recorded for it. -/
def is_problematic (info : Info) : Bool :=
  !(problem_desc info).isEmpty

end CheckProofs

namespace Determinism

/-!
Embedding of `scripts/test_determinism.py` (`normalize_report`,
`compare_reports`, `find_equivalence_classes`), at the level of file
*contents* — the scripts read the two report files and then work purely on
the strings read.
-/

/-- True for the lines `normalize_report` skips (timestamp lines). -/
def is_timestamp_line (line : String) : Bool :=
  pyIn "Generated at:" line || pyIn "Analysis timestamp:" line

/-- Timing-word masking of `normalize_report` (lines 70–75): a word that ends
in `s`, has more than one character, and whose remainder with dots removed is
all digits becomes `X.XXXs`. -/
def mask_word (w : String) : String :=
  if pyEndsWith "s" w && decide (1 < w.data.length) then
    if pyIsDigitStr (w.data.dropLast.filter fun c => c ≠ '.') then "X.XXXs" else w
  else w

/-- Per-cell masking of `normalize_report` (lines 67–75): cells containing an
`s` and a digit have their words masked and re-joined with single spaces. -/
def mask_part (part : String) : String :=
  if pyIn "s" part && part.data.any Char.isDigit then
    pyJoin " " ((pySplitWs part).map mask_word)
  else part

/-- Per-line normalization of `normalize_report` (lines 64–76): lines
containing `"s |"` and a digit are split at `|`, masked per cell, rejoined. -/
def normalize_line (line : String) : String :=
  if pyIn "s |" line && line.data.any Char.isDigit then
    pyJoin "|" ((pySplitOn '|' line).map mask_part)
  else line

/-- Embedding of `normalize_report` (lines 53–79): drop timestamp lines, mask
timing values, rejoin with newlines. -/
def normalize_report (content : String) : String :=
  pyJoin "\n"
    (((pySplitOn '\n' content).filter fun l => !is_timestamp_line l).map normalize_line)

/-- Modelled from the spec: stand-in for Python's `difflib.unified_diff`,
standard-library code not present in the repository.  `compare_reports` only
forwards its output as an opaque diff payload, so only its arguments matter
here; this model emits the removed lines and the added lines (the header
lines of the real implementation carry the impure file paths and are
omitted). -/
def unified_diff (fromLines toLines : List String) : List String :=
  fromLines.map (fun l => "-" ++ l) ++ toLines.map (fun l => "+" ++ l)

/-- Embedding of `compare_reports` (lines 82–109) on the two file contents:
byte-identical files are identical with no notes; files equal after
normalization are identical up to timestamps/timing; otherwise not identical,
with a unified diff of the normalized contents. -/
def compare_reports (content1 content2 : String) : Bool × List String :=
  if content1 = content2 then (true, [])
  else if normalize_report content1 = normalize_report content2 then
    (true, ["Files differ only in timestamps/timing"])
  else
    (false, unified_diff (pySplitOn '\n' (normalize_report content1))
      (pySplitOn '\n' (normalize_report content2)))

/-- The equivalence verdict used by `find_equivalence_classes`: the
`identical` flag of `compare_reports`. -/
def reports_equivalent (c1 c2 : String) : Bool :=
  (compare_reports c1 c2).1

/-- Embedding of `find_equivalence_classes` (lines 173–206) on the list of
report contents: each still-unassigned report starts a class, collecting every
later unassigned report whose comparison with it says identical; the
remaining (inequivalent) reports are grouped recursively. -/
def find_equivalence_classes : List String → List (List String)
  | [] => []
  | x :: xs =>
    (x :: xs.filter fun y => reports_equivalent x y) ::
      find_equivalence_classes (xs.filter fun y => !reports_equivalent x y)
termination_by l => l.length
decreasing_by
  simp only [List.length_cons]
  exact Nat.lt_succ_of_le (List.length_filter_le _ _)

end Determinism

namespace Engine

/-!
Model of the Rust verification engine, which the spec states is not present
in the inspected source tree ("the reconstructed engine is not itself present
in the inspected source, which contains only its callers").  Every definition
that stands in for the missing engine code is marked `Modelled from the
spec:` and follows the spec's words (§3 data model, §4.2 reduction engine,
§4.6 orchestrator).
-/

/-- Modelled from the spec: a Petri-net transition (spec §3, PetriNet), "each
consuming one token from its source place and producing one in its target
place"; modelled generally as consuming the multiset `inp` of tokens and
producing the multiset `outp`. -/
structure PNTransition (P : Type) where
  inp : Multiset P
  outp : Multiset P
  deriving DecidableEq

/-- Modelled from the spec: the Petri net derived from a Network System (spec
§3, §4.1) — its transitions and the initial marking.  Structural reductions
act on the transition list; a removed place is reflected through the removal
of every transition touching it. -/
structure PetriNet (P : Type) where
  transitions : List (PNTransition P)
  init : Multiset P

/-- Modelled from the spec: the marking after firing one transition —
consume the input tokens, produce the output tokens. -/
def fireTrans {P : Type} [DecidableEq P] (m : Multiset P) (t : PNTransition P) : Multiset P :=
  m - t.inp + t.outp

/-- Modelled from the spec: legal concurrent firing sequences of the net.
`FireSeq T m ts m'` holds when the transitions `ts` can fire in order
starting from marking `m`, each drawn from the transition list `T` and
enabled (its input tokens present) when it fires, ending in marking `m'`. -/
inductive FireSeq {P : Type} [DecidableEq P] (T : List (PNTransition P)) :
    Multiset P → List (PNTransition P) → Multiset P → Prop
  | nil (m : Multiset P) : FireSeq T m [] m
  | cons {m m' : Multiset P} {t : PNTransition P} {ts : List (PNTransition P)} :
      t ∈ T → t.inp ≤ m → FireSeq T (fireTrans m t) ts m' → FireSeq T m (t :: ts) m'

/-- Modelled from the spec: the source of the final verdict for a disjunct
(spec §4.6) — whether some marking in the non-serializable region `bad` is
reachable from the initial marking; `Serializable` is reported exactly when
no disjunct's bad region is reachable. -/
def reachesBad {P : Type} [DecidableEq P] (T : List (PNTransition P)) (init : Multiset P)
    (bad : Multiset P → Prop) : Prop :=
  ∃ ts m, FireSeq T init ts m ∧ bad m

/-- The four independent reduction toggles (spec §6, Configuration). -/
structure ReductionFlags where
  bidirectional : Bool
  removeRedundant : Bool
  generateLess : Bool
  smartKleeneOrder : Bool
  deriving DecidableEq, Repr

/-- Modelled from the spec: soundness of a structural reduction's removal set
(spec §4.2 — "removed elements must never participate in any firing sequence
relevant to the disjunct's property"): no firing sequence from the initial
marking into the bad region uses a removed transition. -/
def removalSound {P : Type} [DecidableEq P] (T : List (PNTransition P)) (init : Multiset P)
    (bad : Multiset P → Prop) (removed : List (PNTransition P)) : Prop :=
  ∀ ts m, FireSeq T init ts m → bad m → ∀ t ∈ ts, t ∉ removed

/-- Drop a removal set from a transition list. -/
def removeTrans {P : Type} [DecidableEq P]
    (T removed : List (PNTransition P)) : List (PNTransition P) :=
  T.filter fun t => !(decide (t ∈ removed))

/-- Modelled from the spec: the transition list the engine analyzes under a
given flag configuration — each enabled structural reduction drops its
removal set, and the smart-Kleene-order flag only reorders the processing
sequence of the transitions (spec §4.2: it "reorders the sequence in which
repeated transitions are composed"). -/
def applyReductions {P : Type} [DecidableEq P] (f : ReductionFlags)
    (net : PetriNet P) (rBidi rRedundant rGenLess : List (PNTransition P))
    (reorder : List (PNTransition P) → List (PNTransition P)) :
    List (PNTransition P) :=
  let t1 := if f.bidirectional then removeTrans net.transitions rBidi else net.transitions
  let t2 := if f.removeRedundant then removeTrans t1 rRedundant else t1
  let t3 := if f.generateLess then removeTrans t2 rGenLess else t2
  if f.smartKleeneOrder then reorder t3 else t3

/-- Modelled from the spec: the engine's final verdict source under a flag
configuration — reachability of the non-serializable region in the net left
by the enabled reductions.  The engine reports `Not serializable` exactly
when this holds and `Serializable` exactly when it fails. -/
def engineReachesBad {P : Type} [DecidableEq P] (f : ReductionFlags)
    (net : PetriNet P) (rBidi rRedundant rGenLess : List (PNTransition P))
    (reorder : List (PNTransition P) → List (PNTransition P))
    (bad : Multiset P → Prop) : Prop :=
  reachesBad (applyReductions f net rBidi rRedundant rGenLess reorder) net.init bad

/-- Demo place type for the concrete reduction instance: three places. -/
abbrev DemoPlace := Fin 3

/-- Demo transition moving a token from place 0 to place 1. -/
def demoMove : PNTransition DemoPlace :=
  { inp := {0}, outp := {1} }

/-- Demo transition looping on place 2, which never holds a token. -/
def demoLoop : PNTransition DemoPlace :=
  { inp := {2}, outp := {2} }

/-- Demo net: both transitions, one initial token on place 0. -/
def demoNet : PetriNet DemoPlace :=
  { transitions := [demoMove, demoLoop], init := {0} }

/-- Demo non-serializable region: exactly the marking with one token on
place 1. -/
def demoBad (m : Multiset DemoPlace) : Prop :=
  m = {1}

/-- Flag configuration with every reduction enabled. -/
def allFlags : ReductionFlags :=
  { bidirectional := true, removeRedundant := true, generateLess := true,
    smartKleeneOrder := true }

/-- Flag configuration with every reduction disabled. -/
def noFlags : ReductionFlags :=
  { bidirectional := false, removeRedundant := false, generateLess := false,
    smartKleeneOrder := false }

end Engine


/-! ## Shared helper lemmas -/

theorem AnalyzeDual.method_results_of_ne {rc : Int} (output : String) (h : rc ≠ 0) :
    AnalyzeDual.method_results output rc =
      if AnalyzeDual.is_smpt_timeout output then ("SMPT Timeout", "SMPT Timeout")
      else ("Error", "Error") := by
  unfold AnalyzeDual.method_results
  rw [if_neg h]

theorem AnalyzeOpt.parse_results_of_ne {rc : Int} (out : String) (h : rc ≠ 0) :
    AnalyzeOpt.parse_results out rc =
      if AnalyzeOpt.timeout_flag out then ("SMPT Timeout", "SMPT Timeout", none, none)
      else ("Error", "Error", none, none) := by
  unfold AnalyzeOpt.parse_results
  rw [if_neg h]

/-! ## Claims -/

/-- C9: in the optimized-only analyzer, `run_single_analysis` always returns
an original-method result equal to the proof-based-method result, for every
possible output string and exit code: this front end can never report the two
methods as disagreeing. -/
theorem claim_C9_methods_always_agree (out : String) (rc : Int) :
    (AnalyzeOpt.run_single_analysis out rc).original_result =
      (AnalyzeOpt.run_single_analysis out rc).proof_result := by
  simp only [AnalyzeOpt.run_single_analysis]
  unfold AnalyzeOpt.parse_results
  repeat' split
  all_goals rfl

theorem AnalyzeDual.method_results_fst_mem (output : String) (rc : Int) :
    (AnalyzeDual.method_results output rc).1 ∈
      ["Serializable", "Not serializable", "SMPT Timeout", "Error", "Unknown"] := by
  unfold AnalyzeDual.method_results AnalyzeDual.original_of
  repeat' split
  all_goals first | decide | simp

theorem AnalyzeDual.method_results_snd_mem (output : String) (rc : Int) :
    (AnalyzeDual.method_results output rc).2 ∈
      ["Serializable", "Not serializable", "SMPT Timeout", "Error", "Unknown"] := by
  unfold AnalyzeDual.method_results AnalyzeDual.proof_of
  repeat' split
  all_goals first | decide | simp

theorem AnalyzeOpt.parse_results_fst_mem (out : String) (rc : Int) :
    (AnalyzeOpt.parse_results out rc).1 ∈
      ["Serializable", "Not serializable", "SMPT Timeout", "Error", "Unknown"] := by
  unfold AnalyzeOpt.parse_results
  repeat' split
  all_goals first | decide | simp

theorem AnalyzeOpt.parse_results_proof_mem (out : String) (rc : Int) :
    (AnalyzeOpt.parse_results out rc).2.1 ∈
      ["Serializable", "Not serializable", "SMPT Timeout", "Error", "Unknown"] := by
  unfold AnalyzeOpt.parse_results
  repeat' split
  all_goals first | decide | simp

theorem AnalyzeDual.combined_status_snd_mem (o p : String) :
    (AnalyzeDual.combined_status o p).2 ∈
      ["Serializable", "Not serializable", "SMPT Timeout", "Error", "Unknown",
        "Inconsistent"] := by
  unfold AnalyzeDual.combined_status
  repeat' split
  all_goals first | decide | simp

/-- C7 (corrected): the per-method verdict computed by either analyzer is one
of exactly the five strings `Serializable`, `Not serializable`,
`SMPT Timeout`, `Error` or `Unknown` (the claim's four plus `Unknown`), and
the dual analyzer's combined console status additionally admits
`Inconsistent`. -/
theorem claim_C7_amended_verdict_range (output : String) (rc : Int) :
    (AnalyzeDual.run_single_analysis output rc).original_result ∈
      ["Serializable", "Not serializable", "SMPT Timeout", "Error", "Unknown"]
  ∧ (AnalyzeDual.run_single_analysis output rc).proof_result ∈
      ["Serializable", "Not serializable", "SMPT Timeout", "Error", "Unknown"]
  ∧ (AnalyzeOpt.run_single_analysis output rc).original_result ∈
      ["Serializable", "Not serializable", "SMPT Timeout", "Error", "Unknown"]
  ∧ (AnalyzeOpt.run_single_analysis output rc).proof_result ∈
      ["Serializable", "Not serializable", "SMPT Timeout", "Error", "Unknown"]
  ∧ (AnalyzeDual.run_single_analysis output rc).console_status ∈
      ["Serializable", "Not serializable", "SMPT Timeout", "Error", "Unknown",
        "Inconsistent"] := by
  simp only [AnalyzeDual.run_single_analysis, AnalyzeOpt.run_single_analysis]
  exact ⟨AnalyzeDual.method_results_fst_mem output rc,
    AnalyzeDual.method_results_snd_mem output rc,
    AnalyzeOpt.parse_results_fst_mem output rc,
    AnalyzeOpt.parse_results_proof_mem output rc,
    AnalyzeDual.combined_status_snd_mem _ _⟩

/-- C7 (counterexample): on empty output with exit code 0 the per-method
verdict is the string `Unknown`, which is none of the four verdict strings
the claim allows. -/
theorem claim_C7_counterexample :
    (AnalyzeDual.run_single_analysis "" 0).original_result = "Unknown" ∧
      "Unknown" ∉ ["Serializable", "Not serializable", "SMPT Timeout", "Error"] := by
  constructor <;> decide

/-- C6: for every checker run with a nonzero exit code, both analyzers
classify the run as `SMPT Timeout` exactly when the output contains one of
their recognized timeout markers, and as `Error` exactly otherwise — an
oracle process failure is always reported distinctly from a timeout. -/
theorem claim_C6_error_vs_timeout (output : String) (rc : Int) (h : rc ≠ 0) :
    ((AnalyzeDual.run_single_analysis output rc).original_result = "SMPT Timeout"
        ↔ AnalyzeDual.is_smpt_timeout output = true)
  ∧ ((AnalyzeDual.run_single_analysis output rc).original_result = "Error"
        ↔ AnalyzeDual.is_smpt_timeout output = false)
  ∧ ((AnalyzeDual.run_single_analysis output rc).proof_result = "SMPT Timeout"
        ↔ AnalyzeDual.is_smpt_timeout output = true)
  ∧ ((AnalyzeDual.run_single_analysis output rc).proof_result = "Error"
        ↔ AnalyzeDual.is_smpt_timeout output = false)
  ∧ ((AnalyzeOpt.run_single_analysis output rc).original_result = "SMPT Timeout"
        ↔ AnalyzeOpt.timeout_flag output = true)
  ∧ ((AnalyzeOpt.run_single_analysis output rc).original_result = "Error"
        ↔ AnalyzeOpt.timeout_flag output = false)
  ∧ ((AnalyzeOpt.run_single_analysis output rc).proof_result = "SMPT Timeout"
        ↔ AnalyzeOpt.timeout_flag output = true)
  ∧ ((AnalyzeOpt.run_single_analysis output rc).proof_result = "Error"
        ↔ AnalyzeOpt.timeout_flag output = false) := by
  simp only [AnalyzeDual.run_single_analysis, AnalyzeOpt.run_single_analysis,
    AnalyzeDual.method_results_of_ne output h, AnalyzeOpt.parse_results_of_ne output h]
  cases hd : AnalyzeDual.is_smpt_timeout output <;>
    cases ho : AnalyzeOpt.timeout_flag output <;> simp

/-- C6 witness: a concrete failing run whose output holds a timeout marker is
classified `SMPT Timeout`, one without a marker is classified `Error`. -/
theorem claim_C6_witness :
    ((AnalyzeDual.run_single_analysis "SMPT timeout: 10s" 1).original_result = "SMPT Timeout")
  ∧ ((AnalyzeDual.run_single_analysis "panicked" 101).original_result = "Error") := by
  constructor
  · exact (claim_C6_error_vs_timeout "SMPT timeout: 10s" 1 (by decide)).1.mpr (by decide)
  · exact (claim_C6_error_vs_timeout "panicked" 101 (by decide)).2.1.mpr (by decide)

/-- C1 (counterexample): an output carrying the SMPT-timeout marker together
with an original-method result line, under exit code 0, is classified
`Serializable` by the dual analyzer — not `SMPT Timeout` — refuting the
claim's "regardless of the process exit code". -/
theorem claim_C1_counterexample :
    AnalyzeDual.is_smpt_timeout "SMPT timeout: reached\nOriginal method: Serializable" = true
  ∧ (AnalyzeDual.run_single_analysis
      "SMPT timeout: reached\nOriginal method: Serializable" 0).original_result
      = "Serializable" := by
  constructor <;> decide

/-- C1 (amended): for every checker run with nonzero exit code whose output
contains a recognized SMPT-timeout marker, both per-method results are
`SMPT Timeout` in both analyzers (with exit code 0 the result lines are
parsed regardless of timeout markers). -/
theorem claim_C1_amended_timeout_classified (output : String) (rc : Int) (h : rc ≠ 0) :
    (AnalyzeDual.is_smpt_timeout output = true →
      (AnalyzeDual.run_single_analysis output rc).original_result = "SMPT Timeout"
        ∧ (AnalyzeDual.run_single_analysis output rc).proof_result = "SMPT Timeout")
  ∧ (AnalyzeOpt.timeout_flag output = true →
      (AnalyzeOpt.run_single_analysis output rc).original_result = "SMPT Timeout"
        ∧ (AnalyzeOpt.run_single_analysis output rc).proof_result = "SMPT Timeout") := by
  constructor
  · intro hto
    simp [AnalyzeDual.run_single_analysis, AnalyzeDual.method_results_of_ne output h, hto]
  · intro hto
    simp [AnalyzeOpt.run_single_analysis, AnalyzeOpt.parse_results_of_ne output h, hto]

/-- C1 witness: a concrete timed-out failing run is classified `SMPT Timeout`
by both methods. -/
theorem claim_C1_witness :
    (AnalyzeDual.run_single_analysis "Analysis timed out" 1).original_result = "SMPT Timeout"
  ∧ (AnalyzeDual.run_single_analysis "Analysis timed out" 1).proof_result = "SMPT Timeout" :=
  (claim_C1_amended_timeout_classified "Analysis timed out" 1 (by decide)).1 (by decide)

/-- C2: when the parsed original-method result differs from the parsed
proof-based-method result, the run's console status is `Inconsistent`; and
when the optimized and unoptimized runs report differing statuses, the
example is reported `⚠️ Inconsistent` if neither run had an SMPT timeout,
while if exactly one run timed out the other run's result is used, annotated
with which run timed out. -/
theorem claim_C2_disagreement_surfaced :
    (∀ (output : String) (rc : Int),
      (AnalyzeDual.run_single_analysis output rc).original_result ≠
          (AnalyzeDual.run_single_analysis output rc).proof_result →
        (AnalyzeDual.run_single_analysis output rc).console_status = "Inconsistent")
  ∧ (∀ opt noopt : AnalyzeDual.RunResult, opt.status ≠ noopt.status →
      opt.is_timeout = false → noopt.is_timeout = false →
      AnalyzeDual.combine_statuses opt noopt = ("⚠️ Inconsistent", "Inconsistent"))
  ∧ (∀ opt noopt : AnalyzeDual.RunResult, opt.status ≠ noopt.status →
      opt.is_timeout = true → noopt.is_timeout = false →
      AnalyzeDual.combine_statuses opt noopt =
        (noopt.status ++ " (opt timed out)", noopt.console_status ++ " (opt timed out)"))
  ∧ (∀ opt noopt : AnalyzeDual.RunResult, opt.status ≠ noopt.status →
      opt.is_timeout = false → noopt.is_timeout = true →
      AnalyzeDual.combine_statuses opt noopt =
        (opt.status ++ " (no-opt timed out)", opt.console_status ++ " (no-opt timed out)")) := by
  refine ⟨?_, ?_, ?_, ?_⟩
  · intro output rc hne
    simp only [AnalyzeDual.run_single_analysis] at hne ⊢
    unfold AnalyzeDual.combined_status
    rw [if_neg hne]
  · intro opt noopt hne h1 h2
    unfold AnalyzeDual.combine_statuses
    rw [if_neg hne]
    simp [h1, h2]
  · intro opt noopt hne h1 h2
    unfold AnalyzeDual.combine_statuses
    rw [if_neg hne]
    simp [h1, h2]
  · intro opt noopt hne h1 h2
    unfold AnalyzeDual.combine_statuses
    rw [if_neg hne]
    simp [h1, h2]

/-- C2 witness: a run whose two methods disagree is consoled `Inconsistent`;
concrete differing opt/no-opt results combine to `Inconsistent` when neither
timed out and to the surviving run's annotated status when exactly one did. -/
theorem claim_C2_witness :
    (AnalyzeDual.run_single_analysis
        "Original method: Serializable\nProof-based method: CounterExample" 0).console_status
      = "Inconsistent"
  ∧ AnalyzeDual.combine_statuses
      ⟨"✅ Serializable", "Serializable", "Serializable", "Serializable", false⟩
      ⟨"❌ Not serializable", "Not serializable", "Not serializable", "Not serializable", false⟩
      = ("⚠️ Inconsistent", "Inconsistent")
  ∧ AnalyzeDual.combine_statuses
      ⟨"⏱️ SMPT Timeout", "SMPT Timeout", "SMPT Timeout", "SMPT Timeout", true⟩
      ⟨"✅ Serializable", "Serializable", "Serializable", "Serializable", false⟩
      = ("✅ Serializable (opt timed out)", "Serializable (opt timed out)")
  ∧ AnalyzeDual.combine_statuses
      ⟨"✅ Serializable", "Serializable", "Serializable", "Serializable", false⟩
      ⟨"⏱️ SMPT Timeout", "SMPT Timeout", "SMPT Timeout", "SMPT Timeout", true⟩
      = ("✅ Serializable (no-opt timed out)", "Serializable (no-opt timed out)") := by
  refine ⟨claim_C2_disagreement_surfaced.1 _ 0 (by decide),
    ?_, ?_, ?_⟩
  · have := claim_C2_disagreement_surfaced.2.1
      ⟨"✅ Serializable", "Serializable", "Serializable", "Serializable", false⟩
      ⟨"❌ Not serializable", "Not serializable", "Not serializable", "Not serializable", false⟩
      (by decide) rfl rfl
    simpa using this
  · have := claim_C2_disagreement_surfaced.2.2.1
      ⟨"⏱️ SMPT Timeout", "SMPT Timeout", "SMPT Timeout", "SMPT Timeout", true⟩
      ⟨"✅ Serializable", "Serializable", "Serializable", "Serializable", false⟩
      (by decide) rfl rfl
    simpa using this
  · have := claim_C2_disagreement_surfaced.2.2.2
      ⟨"✅ Serializable", "Serializable", "Serializable", "Serializable", false⟩
      ⟨"⏱️ SMPT Timeout", "SMPT Timeout", "SMPT Timeout", "SMPT Timeout", true⟩
      (by decide) rfl rfl
    simpa using this

/-- C3 (counterexample): an output reporting a serializable verdict that
contains both the VALID and the INVALID certificate markers (plus the
invariant and initial-state lines) is accepted as valid and is not flagged as
problematic, although it contains `❌ Proof certificate is INVALID` — the
validity check consults the VALID marker first. -/
theorem claim_C3_counterexample :
    pyIn "❌ Proof certificate is INVALID"
        "✅ The network system IS serializable\n✅ Proof certificate is VALID\n❌ Proof certificate is INVALID\nNS-Level Invariants:\n✓ Initial state satisfies the invariant"
      = true
  ∧ (CheckProofs.analyze_result
        "✅ The network system IS serializable\n✅ Proof certificate is VALID\n❌ Proof certificate is INVALID\nNS-Level Invariants:\n✓ Initial state satisfies the invariant"
        "" 0).result = some "serializable"
  ∧ CheckProofs.is_problematic (CheckProofs.analyze_result
        "✅ The network system IS serializable\n✅ Proof certificate is VALID\n❌ Proof certificate is INVALID\nNS-Level Invariants:\n✓ Initial state satisfies the invariant"
        "" 0) = false := by
  refine ⟨by decide, by decide, by decide⟩

theorem CheckProofs.check_proof_validity_not_valid {stdout : String}
    (hval : pyIn "✅ Proof certificate is VALID" stdout = false) :
    (CheckProofs.check_proof_validity stdout).1 = some false
      ∨ (CheckProofs.check_proof_validity stdout).1 = none := by
  unfold CheckProofs.check_proof_validity
  rw [if_neg (by simp [hval])]
  split
  · left; rfl
  · split
    · left; rfl
    · right; rfl

/-- C3 (amended): for every checker output whose verdict is parsed as
serializable, if the validity check does not find the marker
`✅ Proof certificate is VALID` (so it either finds
`❌ Proof certificate is INVALID`, or a verification section with no clear
result, or no verification section), the example is flagged problematic and
its certificate is never recorded as valid; and in the optimized-only
analyzer a result is counted among the validly proven serializable cases
only when its proof verification returned valid. -/
theorem claim_C3_amended_invalid_proof_flagged :
    (∀ (stdout stderr : String) (rc : Int),
      (CheckProofs.analyze_result stdout stderr rc).result = some "serializable" →
      pyIn "✅ Proof certificate is VALID" stdout = false →
      (CheckProofs.analyze_result stdout stderr rc).proof_valid ≠ some true
        ∧ CheckProofs.is_problematic (CheckProofs.analyze_result stdout stderr rc) = true)
  ∧ (∀ (rs : List AnalyzeOpt.RunResult) (r : AnalyzeOpt.RunResult),
      r ∈ AnalyzeOpt.valid_proof_results rs → r.proof_verification = some true) := by
  constructor
  · intro stdout stderr rc hres hval
    by_cases herr : (rc != 0 || pyIn "ERROR" stderr || pyIn "TIMEOUT" stderr) = true
    · unfold CheckProofs.analyze_result at hres
      rw [if_pos herr] at hres
      simp at hres
    · by_cases hser : CheckProofs.result_of stdout = "serializable"
      · have harj : CheckProofs.analyze_result stdout stderr rc =
            { status := "success", result := some (CheckProofs.result_of stdout)
              proof_valid := (CheckProofs.check_proof_validity stdout).1
              proof_status := some (CheckProofs.check_proof_validity stdout).2
              has_ns_invariants := some (pyIn "NS-Level Invariants:" stdout)
              initial_state_check :=
                some (pyIn "✓ Initial state satisfies the invariant" stdout) } := by
          unfold CheckProofs.analyze_result
          rw [if_neg herr, if_pos hser]
        rcases CheckProofs.check_proof_validity_not_valid hval with h | h <;>
          simp [harj, CheckProofs.is_problematic, CheckProofs.problem_desc, h, hser]
      · exfalso
        unfold CheckProofs.analyze_result at hres
        rw [if_neg herr, if_neg hser] at hres
        split at hres <;> simp at hres <;> exact hser hres
  · intro rs r hmem
    have := List.of_mem_filter hmem
    simp only [Bool.and_eq_true, beq_iff_eq] at this
    exact this.2

/-- C3 witness: a concrete serializable output whose certificate is reported
INVALID is flagged problematic, and a concrete optimized-analyzer result list
counts no unverified result as validly proven. -/
theorem claim_C3_witness :
    ((CheckProofs.analyze_result
        "✅ The network system IS serializable\n❌ Proof certificate is INVALID" "" 0).proof_valid
      ≠ some true)
  ∧ CheckProofs.is_problematic (CheckProofs.analyze_result
        "✅ The network system IS serializable\n❌ Proof certificate is INVALID" "" 0) = true :=
  claim_C3_amended_invalid_proof_flagged.1
    "✅ The network system IS serializable\n❌ Proof certificate is INVALID" "" 0
    (by decide) (by decide)

/-- C4: for every checker output whose verdict is parsed as not_serializable,
a missing `NS-Level Counterexample Trace:` section or a missing
`Completed Request/Response Pairs:` section is flagged with the corresponding
missing-artifact message, and either omission makes the example problematic —
a non-serializable verdict without counterexample evidence is never accepted
as OK. -/
theorem claim_C4_missing_counterexample_flagged (stdout stderr : String) (rc : Int)
    (hres : (CheckProofs.analyze_result stdout stderr rc).result = some "not_serializable") :
    (pyIn "NS-Level Counterexample Trace:" stdout = false →
      "Missing NS-level counterexample trace" ∈
        CheckProofs.problem_desc (CheckProofs.analyze_result stdout stderr rc))
  ∧ (pyIn "Completed Request/Response Pairs:" stdout = false →
      "Missing completed request/response pairs" ∈
        CheckProofs.problem_desc (CheckProofs.analyze_result stdout stderr rc))
  ∧ ((pyIn "NS-Level Counterexample Trace:" stdout = false ∨
        pyIn "Completed Request/Response Pairs:" stdout = false) →
      CheckProofs.is_problematic (CheckProofs.analyze_result stdout stderr rc) = true) := by
  by_cases herr : (rc != 0 || pyIn "ERROR" stderr || pyIn "TIMEOUT" stderr) = true
  · exfalso
    unfold CheckProofs.analyze_result at hres
    rw [if_pos herr] at hres
    simp at hres
  · by_cases hser : CheckProofs.result_of stdout = "serializable"
    · exfalso
      unfold CheckProofs.analyze_result at hres
      rw [if_neg herr, if_pos hser] at hres
      simp [hser] at hres
    · by_cases hns : CheckProofs.result_of stdout = "not_serializable"
      · have harj : CheckProofs.analyze_result stdout stderr rc =
            { status := "success", result := some (CheckProofs.result_of stdout)
              has_ns_trace := some (pyIn "NS-Level Counterexample Trace:" stdout)
              has_completed_pairs :=
                some (pyIn "Completed Request/Response Pairs:" stdout) } := by
          unfold CheckProofs.analyze_result
          rw [if_neg herr, if_neg hser, if_pos hns]
        refine ⟨fun h1 => ?_, fun h2 => ?_, fun h12 => ?_⟩
        · simp [harj, CheckProofs.problem_desc, hns, h1]
        · simp [harj, CheckProofs.problem_desc, hns, h2]
        · rcases h12 with h | h <;>
            · cases h1 : pyIn "NS-Level Counterexample Trace:" stdout <;>
                cases h2 : pyIn "Completed Request/Response Pairs:" stdout <;>
                simp_all [harj, CheckProofs.is_problematic, CheckProofs.problem_desc, hns]
      · exfalso
        unfold CheckProofs.analyze_result at hres
        rw [if_neg herr, if_neg hser, if_neg hns] at hres
        simp at hres
        exact hns hres

/-- C4 witness: a concrete non-serializable output lacking both artifact
sections receives both missing-artifact messages and is problematic. -/
theorem claim_C4_witness :
    "Missing NS-level counterexample trace" ∈
      CheckProofs.problem_desc
        (CheckProofs.analyze_result "❌ The network system is NOT serializable" "" 0)
  ∧ CheckProofs.is_problematic
      (CheckProofs.analyze_result "❌ The network system is NOT serializable" "" 0) = true := by
  have h := claim_C4_missing_counterexample_flagged
    "❌ The network system is NOT serializable" "" 0 (by decide)
  exact ⟨h.1 (by decide), h.2.2 (Or.inl (by decide))⟩

/-- C8: `compare_reports` returns identical with an empty difference list
exactly when the two contents are equal; contents that differ but normalize
equally yield identical with the timestamps/timing note; otherwise it returns
not-identical with the unified diff of the normalized contents. -/
theorem claim_C8_compare_reports_cases (c1 c2 : String) :
    (Determinism.compare_reports c1 c2 = (true, ([] : List String)) ↔ c1 = c2)
  ∧ (c1 ≠ c2 → Determinism.normalize_report c1 = Determinism.normalize_report c2 →
      Determinism.compare_reports c1 c2 =
        (true, ["Files differ only in timestamps/timing"]))
  ∧ (Determinism.normalize_report c1 ≠ Determinism.normalize_report c2 →
      Determinism.compare_reports c1 c2 =
        (false, Determinism.unified_diff (pySplitOn '\n' (Determinism.normalize_report c1))
          (pySplitOn '\n' (Determinism.normalize_report c2)))) := by
  by_cases heq : c1 = c2
  · subst heq
    exact ⟨by simp [Determinism.compare_reports], fun hne => absurd rfl hne,
      fun hn => absurd rfl hn⟩
  · by_cases hn : Determinism.normalize_report c1 = Determinism.normalize_report c2
    · have hc : Determinism.compare_reports c1 c2 =
          (true, ["Files differ only in timestamps/timing"]) := by
        unfold Determinism.compare_reports
        rw [if_neg heq, if_pos hn]
      refine ⟨?_, fun _ _ => hc, fun hnn => absurd hn hnn⟩
      rw [hc]
      simp [heq]
    · have hc : Determinism.compare_reports c1 c2 =
          (false, Determinism.unified_diff (pySplitOn '\n' (Determinism.normalize_report c1))
            (pySplitOn '\n' (Determinism.normalize_report c2))) := by
        unfold Determinism.compare_reports
        rw [if_neg heq, if_neg hn]
      refine ⟨?_, fun _ hnn => absurd hnn hn, fun _ => hc⟩
      rw [hc]
      simp [heq]

/-- C8 witness: two reports differing only in a timestamp line compare as
identical up to timestamps/timing, and two genuinely different reports
compare as not identical. -/
theorem claim_C8_witness :
    Determinism.compare_reports "Generated at: 1\nA" "Generated at: 2\nA"
      = (true, ["Files differ only in timestamps/timing"])
  ∧ (Determinism.compare_reports "a" "b").1 = false := by
  constructor
  · exact (claim_C8_compare_reports_cases "Generated at: 1\nA" "Generated at: 2\nA").2.1
      (by decide) (by decide)
  · rw [(claim_C8_compare_reports_cases "a" "b").2.2 (by decide)]

theorem Determinism.reports_equivalent_iff (c1 c2 : String) :
    reports_equivalent c1 c2 = true ↔
      c1 = c2 ∨ normalize_report c1 = normalize_report c2 := by
  unfold reports_equivalent compare_reports
  by_cases heq : c1 = c2
  · simp [heq]
  · by_cases hn : normalize_report c1 = normalize_report c2 <;> simp [heq, hn]

theorem Determinism.reports_equivalent_refl (a : String) :
    reports_equivalent a a = true := by
  rw [reports_equivalent_iff]
  exact Or.inl rfl

theorem Determinism.reports_equivalent_symm {a b : String}
    (h : reports_equivalent a b = true) : reports_equivalent b a = true := by
  rw [reports_equivalent_iff] at h ⊢
  rcases h with h | h
  · exact Or.inl h.symm
  · exact Or.inr h.symm

theorem Determinism.reports_equivalent_trans {a b c : String}
    (h1 : reports_equivalent a b = true) (h2 : reports_equivalent b c = true) :
    reports_equivalent a c = true := by
  rw [reports_equivalent_iff] at h1 h2 ⊢
  rcases h1 with h1 | h1
  · rcases h2 with h2 | h2
    · exact Or.inl (h1.trans h2)
    · exact Or.inr ((congrArg normalize_report h1).trans h2)
  · rcases h2 with h2 | h2
    · exact Or.inr (h1.trans (congrArg normalize_report h2))
    · exact Or.inr (h1.trans h2)

theorem Determinism.find_equivalence_classes_nil :
    find_equivalence_classes [] = [] := by
  rw [find_equivalence_classes.eq_def]

theorem Determinism.find_equivalence_classes_cons (x : String) (xs : List String) :
    find_equivalence_classes (x :: xs) =
      (x :: xs.filter fun y => reports_equivalent x y) ::
        find_equivalence_classes (xs.filter fun y => !reports_equivalent x y) := by
  rw [find_equivalence_classes.eq_def]

theorem Determinism.find_equivalence_classes_join_perm (l : List String) :
    ((find_equivalence_classes l).flatten).Perm l := by
  induction l using find_equivalence_classes.induct with
  | case1 => simp [find_equivalence_classes_nil]
  | case2 x xs ih =>
    rw [find_equivalence_classes_cons, List.flatten_cons]
    refine List.Perm.trans (List.Perm.append_left _ ih) ?_
    exact (List.filter_append_perm _ xs).cons x

theorem Determinism.mem_of_mem_class {l : List String} {c : List String} {a : String}
    (hc : c ∈ find_equivalence_classes l) (ha : a ∈ c) : a ∈ l :=
  (find_equivalence_classes_join_perm l).subset (List.mem_flatten.mpr ⟨c, hc, ha⟩)

theorem Determinism.rep_equivalent_of_mem_class {x a : String} {xs : List String}
    (ha : a ∈ x :: xs.filter fun y => reports_equivalent x y) :
    reports_equivalent x a = true := by
  rcases List.mem_cons.mp ha with h | h
  · subst h
    exact reports_equivalent_refl _
  · exact List.of_mem_filter h

theorem Determinism.same_class_equivalent {l : List String} :
    ∀ c ∈ find_equivalence_classes l, ∀ a ∈ c, ∀ b ∈ c,
      reports_equivalent a b = true := by
  induction l using find_equivalence_classes.induct with
  | case1 =>
    rw [find_equivalence_classes_nil]
    intro c hc
    simp at hc
  | case2 x xs ih =>
    rw [find_equivalence_classes_cons]
    intro c hc a ha b hb
    rcases List.mem_cons.mp hc with h | h
    · subst h
      exact reports_equivalent_trans
        (reports_equivalent_symm (rep_equivalent_of_mem_class ha))
        (rep_equivalent_of_mem_class hb)
    · exact ih c h a ha b hb

theorem Determinism.cross_class_inequivalent {l : List String} :
    (find_equivalence_classes l).Pairwise fun c d =>
      ∀ a ∈ c, ∀ b ∈ d, reports_equivalent a b = false := by
  induction l using find_equivalence_classes.induct with
  | case1 =>
    rw [find_equivalence_classes_nil]
    exact List.Pairwise.nil
  | case2 x xs ih =>
    rw [find_equivalence_classes_cons]
    refine List.Pairwise.cons ?_ ih
    intro d hd a ha b hb
    have hxb : reports_equivalent x b = false := by
      have hbmem : b ∈ xs.filter fun y => !reports_equivalent x y :=
        mem_of_mem_class hd hb
      have := List.of_mem_filter hbmem
      simpa using this
    have hxa : reports_equivalent x a = true := rep_equivalent_of_mem_class ha
    by_contra hab
    rw [Bool.not_eq_false] at hab
    exact absurd (reports_equivalent_trans hxa hab)
      (by simp [hxb])

/-- C10: the report-equivalence verdict of `compare_reports` is an
equivalence relation (reflexive, symmetric, transitive), and the groups built
by `find_equivalence_classes` form a partition of the runs — their
concatenation is a permutation of the input, members of one group are
pairwise equivalent, and members of distinct groups are never equivalent —
so the partition does not depend on which member represents a group. -/
theorem claim_C10_equivalence_partition :
    (Equivalence fun a b : String => Determinism.reports_equivalent a b = true)
  ∧ (∀ l : List String, ((Determinism.find_equivalence_classes l).flatten).Perm l)
  ∧ (∀ l : List String, ∀ c ∈ Determinism.find_equivalence_classes l,
      ∀ a ∈ c, ∀ b ∈ c, Determinism.reports_equivalent a b = true)
  ∧ (∀ l : List String, (Determinism.find_equivalence_classes l).Pairwise fun c d =>
      ∀ a ∈ c, ∀ b ∈ d, Determinism.reports_equivalent a b = false) :=
  ⟨⟨Determinism.reports_equivalent_refl,
      fun h => Determinism.reports_equivalent_symm h,
      fun h1 h2 => Determinism.reports_equivalent_trans h1 h2⟩,
    Determinism.find_equivalence_classes_join_perm,
    fun _ => Determinism.same_class_equivalent,
    fun _ => Determinism.cross_class_inequivalent⟩

/-- C10 witness: on a concrete singleton run list the unique group contains
the run, its members are mutually equivalent, and the groups concatenate back
to the run list. -/
theorem claim_C10_witness :
    Determinism.reports_equivalent "report A" "report A" = true
  ∧ ((Determinism.find_equivalence_classes ["report A"]).flatten).Perm ["report A"] := by
  have hfec : Determinism.find_equivalence_classes ["report A"] = [["report A"]] := by
    rw [Determinism.find_equivalence_classes_cons]
    simp only [List.filter_nil]
    rw [Determinism.find_equivalence_classes_nil]
  refine ⟨?_, claim_C10_equivalence_partition.2.1 ["report A"]⟩
  exact claim_C10_equivalence_partition.2.2.1 ["report A"] ["report A"]
    (by rw [hfec]; exact List.mem_singleton_self _) "report A" (List.mem_singleton_self _)
    "report A" (List.mem_singleton_self _)

theorem Engine.fireSeq_mono {P : Type} [DecidableEq P]
    {T T' : List (Engine.PNTransition P)} {m m' : Multiset P}
    {ts : List (Engine.PNTransition P)} (hs : Engine.FireSeq T m ts m')
    (hsub : ∀ t ∈ ts, t ∈ T') : Engine.FireSeq T' m ts m' := by
  induction hs with
  | nil m => exact Engine.FireSeq.nil m
  | cons hmem hen _ ih =>
    exact Engine.FireSeq.cons (hsub _ (List.mem_cons_self _ _)) hen
      (ih fun t ht => hsub t (List.mem_cons_of_mem _ ht))

theorem Engine.fireSeq_uses_mem {P : Type} [DecidableEq P]
    {T : List (Engine.PNTransition P)} {m m' : Multiset P}
    {ts : List (Engine.PNTransition P)} (hs : Engine.FireSeq T m ts m') :
    ∀ t ∈ ts, t ∈ T := by
  induction hs with
  | nil m => intro t ht; simp at ht
  | cons hmem _ _ ih =>
    intro t ht
    rcases List.mem_cons.mp ht with h | h
    · subst h; exact hmem
    · exact ih t h

theorem Engine.mem_removeTrans {P : Type} [DecidableEq P]
    {T removed : List (Engine.PNTransition P)} {t : Engine.PNTransition P} :
    t ∈ Engine.removeTrans T removed ↔ t ∈ T ∧ t ∉ removed := by
  simp [Engine.removeTrans, List.mem_filter]

theorem Engine.mem_applyReductions {P : Type} [DecidableEq P]
    {f : Engine.ReductionFlags} {net : Engine.PetriNet P}
    {rb rr rg : List (Engine.PNTransition P)}
    {reorder : List (Engine.PNTransition P) → List (Engine.PNTransition P)}
    (hperm : ∀ T, (reorder T).Perm T) {t : Engine.PNTransition P} :
    t ∈ Engine.applyReductions f net rb rr rg reorder ↔
      t ∈ net.transitions ∧ (f.bidirectional = true → t ∉ rb)
        ∧ (f.removeRedundant = true → t ∉ rr)
        ∧ (f.generateLess = true → t ∉ rg) := by
  rcases f with ⟨b1, b2, b3, b4⟩
  cases b1 <;> cases b2 <;> cases b3 <;> cases b4 <;>
    simp [Engine.applyReductions, Engine.mem_removeTrans, (hperm _).mem_iff, and_assoc]

/-- C5 (spec-modelled): for every Petri net, non-serializable region, and
per-reduction removal sets that are sound in the spec's sense — removed
elements never participate in a firing sequence relevant to the property —
and for every reordering performed by the smart-Kleene-order pass, any two
configurations of the four reduction toggles yield the same final
reaches-bad verdict: enabling or disabling any subset of the reductions
never changes the Serializable/Not-serializable outcome. -/
theorem claim_C5_reductions_preserve_verdict {P : Type} [DecidableEq P]
    (net : Engine.PetriNet P) (bad : Multiset P → Prop)
    (rb rr rg : List (Engine.PNTransition P))
    (reorder : List (Engine.PNTransition P) → List (Engine.PNTransition P))
    (hb : Engine.removalSound net.transitions net.init bad rb)
    (hr : Engine.removalSound net.transitions net.init bad rr)
    (hg : Engine.removalSound net.transitions net.init bad rg)
    (hperm : ∀ T, (reorder T).Perm T)
    (f f' : Engine.ReductionFlags) :
    Engine.engineReachesBad f net rb rr rg reorder bad ↔
      Engine.engineReachesBad f' net rb rr rg reorder bad := by
  have key : ∀ g : Engine.ReductionFlags,
      Engine.engineReachesBad g net rb rr rg reorder bad ↔
        Engine.reachesBad net.transitions net.init bad := by
    intro g
    constructor
    · rintro ⟨ts, m, hseq, hbad⟩
      refine ⟨ts, m, Engine.fireSeq_mono hseq ?_, hbad⟩
      intro t ht
      exact ((Engine.mem_applyReductions hperm).mp
        (Engine.fireSeq_uses_mem hseq t ht)).1
    · rintro ⟨ts, m, hseq, hbad⟩
      refine ⟨ts, m, Engine.fireSeq_mono hseq ?_, hbad⟩
      intro t ht
      refine (Engine.mem_applyReductions hperm).mpr
        ⟨Engine.fireSeq_uses_mem hseq t ht, ?_, ?_, ?_⟩
      · intro _; exact hb ts m hseq hbad t ht
      · intro _; exact hr ts m hseq hbad t ht
      · intro _; exact hg ts m hseq hbad t ht
  exact (key f).trans (key f').symm

theorem Engine.removalSound_nil {P : Type} [DecidableEq P]
    (T : List (Engine.PNTransition P)) (init : Multiset P)
    (bad : Multiset P → Prop) : Engine.removalSound T init bad [] := by
  intro ts m _ _ t _ h
  simp at h

theorem Engine.demo_loop_not_fired {ts : List (Engine.PNTransition Engine.DemoPlace)}
    {m m' : Multiset Engine.DemoPlace}
    (hs : Engine.FireSeq Engine.demoNet.transitions m ts m')
    (hm : m = ({0} : Multiset Engine.DemoPlace) ∨ m = {1}) :
    Engine.demoLoop ∉ ts := by
  induction hs with
  | nil m => simp
  | cons hmem hen _ ih =>
    rename_i mm mm' t tss hrest
    have ht : t = Engine.demoMove ∨ t = Engine.demoLoop := by
      simpa [Engine.demoNet] using hmem
    rcases hm with hm | hm <;> subst hm
    · rcases ht with ht | ht <;> subst ht
      · have hfire : Engine.fireTrans ({0} : Multiset Engine.DemoPlace) Engine.demoMove
            = {1} := by decide
        have hni := ih (by rw [hfire]; exact Or.inr rfl)
        simp [hni]
        decide
      · exact absurd hen (by decide)
    · rcases ht with ht | ht <;> subst ht
      · exact absurd hen (by decide)
      · exact absurd hen (by decide)

theorem Engine.demo_removalSound :
    Engine.removalSound Engine.demoNet.transitions Engine.demoNet.init
      Engine.demoBad [Engine.demoLoop] := by
  intro ts m hseq _ t ht hrem
  have hloop : t = Engine.demoLoop := by simpa using hrem
  subst hloop
  exact Engine.demo_loop_not_fired hseq (Or.inl rfl) ht

/-- C5 witness: on the concrete demo net, the removal set of the looping
transition is sound, and running the engine with all four reductions enabled
agrees with running it with all four disabled. -/
theorem claim_C5_witness :
    Engine.removalSound Engine.demoNet.transitions Engine.demoNet.init
      Engine.demoBad [Engine.demoLoop]
  ∧ (Engine.engineReachesBad Engine.allFlags Engine.demoNet [Engine.demoLoop] [] []
        List.reverse Engine.demoBad ↔
      Engine.engineReachesBad Engine.noFlags Engine.demoNet [Engine.demoLoop] [] []
        List.reverse Engine.demoBad) :=
  ⟨Engine.demo_removalSound,
    claim_C5_reductions_preserve_verdict Engine.demoNet Engine.demoBad
      [Engine.demoLoop] [] [] List.reverse
      Engine.demo_removalSound
      (Engine.removalSound_nil _ _ _)
      (Engine.removalSound_nil _ _ _)
      (fun T => T.reverse_perm)
      Engine.allFlags Engine.noFlags⟩
